import Mathlib

/-!
Shallow embedding of the `DisplayData` streaming accumulator from
`src/solar.py` (inky-solar).  Minutes are naturals, power values and
normalized coordinates are rationals (Python true division is modelled by
division in ℚ).  The external forecast provider
(`asyncio.run(get_solar_forecast())`) is modelled as an explicit argument of
type `Except Unit (List (Timestamp × ℚ))`: `.error` is a raised exception,
`.ok entries` is the `estimations.watts` mapping in iteration order.
`date.today()` is modelled by an explicit `today : ℤ` argument.
-/

namespace InkySolar

/-- MINUTES_IN_A_DAY = 24 * 60 (src/solar.py line 25). -/
def MINUTES_IN_A_DAY : ℕ := 24 * 60

/-- MAX_SOLAR_POWER = 8000 (src/solar.py line 26), the capacity ceiling. -/
def MAX_SOLAR_POWER : ℚ := 8000

/-- The parts of a `datetime` that the accumulator reads: its calendar date
(as an abstract day number), hour and minute. -/
structure Timestamp where
  date : ℤ
  hour : ℕ
  minute : ℕ
deriving Repr, DecidableEq

/-- minute_in_the_day = (timestamp.hour * 60) + timestamp.minute. -/
def Timestamp.minuteOfDay (t : Timestamp) : ℕ := t.hour * 60 + t.minute

/-- Outcome of `asyncio.run(get_solar_forecast())`: an exception, or the
`estimations.watts` mapping as an association list in iteration order. -/
abbrev Provider := Except Unit (List (Timestamp × ℚ))

/-- The fields of `DisplayData` that the accumulator logic touches
(src/solar.py lines 78-116).  This models a single instance with the
class-level list defaults untouched; the class-attribute aliasing between
two instances is modelled separately below (`PyModel`). -/
structure DisplayData where
  solar_current : ℚ
  solar_today : ℚ
  last_solar_time : ℕ
  last_update_time : Option ℕ
  forecast : Bool
  solar_values_minute : List ℚ
  solar_values_power : List ℚ
  solar_hourly_values : List (List ℚ)
  solar_hourly_prediction_values : List ℚ
  solar_predictions_minute : List ℚ
  solar_predictions_power : List ℚ
  minutes_between_updates : ℕ
deriving Repr, DecidableEq

/-- reset_hourly_values (src/solar.py lines 112-116): reassigns
`solar_hourly_values` to a fresh list of 24 empty buckets, but only
*appends* 24 zeros to `solar_hourly_prediction_values` (the loop body
`self.solar_hourly_prediction_values.append(0)` never clears it). -/
def DisplayData.reset_hourly_values (d : DisplayData) : DisplayData :=
  { d with
    solar_hourly_values := List.replicate 24 []
    solar_hourly_prediction_values :=
      d.solar_hourly_prediction_values ++ List.replicate 24 0 }

/-- DisplayData.__init__ (src/solar.py lines 98-110) for a single fresh
instance: the class-level list defaults are all empty, scalars are zeroed,
`last_solar_time` starts above the valid range, `last_update_time` keeps its
class default `None`, and `reset_hourly_values` runs. -/
def DisplayData.init (forecast : Bool) (minutes_between_updates : ℕ) : DisplayData :=
  DisplayData.reset_hourly_values
    { solar_current := 0
      solar_today := 0
      last_solar_time := MINUTES_IN_A_DAY + 1
      last_update_time := none
      forecast := forecast
      solar_values_minute := []
      solar_values_power := []
      solar_hourly_values := []
      solar_hourly_prediction_values := []
      solar_predictions_minute := []
      solar_predictions_power := []
      minutes_between_updates := minutes_between_updates }

/-- One iteration of the loop over `estimations.watts.items()`
(src/solar.py lines 171-178): entries dated today get the half-hour offset
appended to the prediction series; entries at minute 0 additionally set
`solar_hourly_prediction_values[hour]`. -/
def mergeStep (today : ℤ) (acc : DisplayData) (e : Timestamp × ℚ) : DisplayData :=
  if e.1.date = today then
    let minute_in_the_day : ℕ := e.1.hour * 60 + 30
    let acc' :=
      { acc with
        solar_predictions_minute :=
          acc.solar_predictions_minute ++ [(minute_in_the_day : ℚ) / (MINUTES_IN_A_DAY : ℚ)]
        solar_predictions_power :=
          acc.solar_predictions_power ++ [e.2 / MAX_SOLAR_POWER] }
    if e.1.minute = 0 then
      { acc' with
        solar_hourly_prediction_values :=
          acc'.solar_hourly_prediction_values.set e.1.hour (e.2 / MAX_SOLAR_POWER) }
    else acc'
  else acc

/-- update_solar_prediction_if_needed (src/solar.py lines 163-180): no-op
when forecasting is off or `solar_predictions_minute` is nonempty; otherwise
the provider is consulted, a raised exception is swallowed by the
`try/except` (leaving the state untouched), and a returned mapping is folded
through `mergeStep`. -/
def DisplayData.update_solar_prediction_if_needed (d : DisplayData) (today : ℤ)
    (provider : Provider) : DisplayData :=
  if d.forecast = false ∨ 0 < d.solar_predictions_minute.length then d
  else
    match provider with
    | .error _ => d
    | .ok entries => entries.foldl (mergeStep today) d

/-- update_required of append_solar_value (src/solar.py line 120):
`self.last_update_time == None or minute_in_the_day >= self.last_update_time
+ self.minutes_between_updates`. -/
def DisplayData.updateRequiredOf (d : DisplayData) (m : ℕ) : Bool :=
  match d.last_update_time with
  | none => true
  | some r => decide (r + d.minutes_between_updates ≤ m)

/-- append_solar_value (src/solar.py lines 118-140): stores the raw minute
and raw watt value; on rollover (`minute_in_the_day < last_solar_time`) the
series are reset; the raw value always lands in the hourly bucket of the
timestamp's hour; the merge runs and `last_update_time` is advanced exactly
when `update_required`; `last_solar_time` is updated last, and
`update_required` is returned. -/
def DisplayData.append_solar_value (d : DisplayData) (ts : Timestamp) (value : ℚ)
    (today : ℤ) (provider : Provider) : DisplayData × Bool :=
  let m := ts.minuteOfDay
  let update_required := d.updateRequiredOf m
  let d1 :=
    if m < d.last_solar_time then
      let dr := d.reset_hourly_values
      { dr with
        solar_predictions_minute := []
        solar_predictions_power := []
        solar_values_minute := [(m : ℚ)]
        solar_values_power := [value] }
    else
      { d with
        solar_values_minute := d.solar_values_minute ++ [(m : ℚ)]
        solar_values_power := d.solar_values_power ++ [value] }
  let d2 :=
    { d1 with
      solar_hourly_values :=
        d1.solar_hourly_values.set ts.hour ((d1.solar_hourly_values.getD ts.hour []) ++ [value]) }
  let d3 :=
    if update_required then
      { d2.update_solar_prediction_if_needed today provider with last_update_time := some m }
    else d2
  ({ d3 with last_solar_time := m }, update_required)

/-- append_solar_value_normalized (src/solar.py lines 142-161): stores
minute/1440 and value/8000; `update_required` is `minute_in_the_day >
last_solar_time` (NOT the refresh-gating formula), `last_update_time` is
never touched, and `update_solar_prediction_if_needed` runs on every call,
after `last_solar_time` is updated. -/
def DisplayData.append_solar_value_normalized (d : DisplayData) (ts : Timestamp)
    (value : ℚ) (today : ℤ) (provider : Provider) : DisplayData × Bool :=
  let m := ts.minuteOfDay
  let update_required := decide (d.last_solar_time < m)
  let d1 :=
    if m < d.last_solar_time then
      let dr := d.reset_hourly_values
      { dr with
        solar_predictions_minute := []
        solar_predictions_power := []
        solar_values_minute := [(m : ℚ) / (MINUTES_IN_A_DAY : ℚ)]
        solar_values_power := [value / MAX_SOLAR_POWER] }
    else
      { d with
        solar_values_minute := d.solar_values_minute ++ [(m : ℚ) / (MINUTES_IN_A_DAY : ℚ)]
        solar_values_power := d.solar_values_power ++ [value / MAX_SOLAR_POWER] }
  let d2 :=
    { d1 with
      solar_hourly_values :=
        d1.solar_hourly_values.set ts.hour ((d1.solar_hourly_values.getD ts.hour []) ++ [value]) }
  let d3 := { d2 with last_solar_time := m }
  (d3.update_solar_prediction_if_needed today provider, update_required)

/-- Runs `append_solar_value` over a list of (sample, provider outcome)
pairs, collecting the returned `update_required` flags in order. -/
def runAppend (d : DisplayData) (today : ℤ) :
    List ((Timestamp × ℚ) × Provider) → DisplayData × List Bool
  | [] => (d, [])
  | ((ts, v), p) :: rest =>
    let step := d.append_solar_value ts v today p
    let later := runAppend step.1 today rest
    (later.1, step.2 :: later.2)

/-- Runs `append_solar_value_normalized` over a list of (sample, provider
outcome) pairs, collecting the returned flags in order. -/
def runNormalized (d : DisplayData) (today : ℤ) :
    List ((Timestamp × ℚ) × Provider) → DisplayData × List Bool
  | [] => (d, [])
  | ((ts, v), p) :: rest =>
    let step := d.append_solar_value_normalized ts v today p
    let later := runNormalized step.1 today rest
    (later.1, step.2 :: later.2)

/-!
Python attribute semantics for the class-level mutable defaults
(src/solar.py lines 90-95).  `solar_values_minute`, `solar_values_power`,
`solar_hourly_prediction_values`, `solar_predictions_minute` and
`solar_predictions_power` are declared as class attributes holding list
objects.  Reading `self.x` resolves the instance `__dict__` first and falls
back to the class attribute; `self.x = v` creates an instance attribute;
`self.x.append(v)` mutates whichever list the lookup resolved.  We model the
list objects in a store indexed by addresses; the five class attributes hold
five fixed addresses, and each instance carries an optional overriding
address per attribute (`none` = no instance attribute yet).
-/

namespace PyModel

/-- Heap of Python list objects, indexed by address. -/
structure Store where
  lists : List (List ℚ)
deriving Repr, DecidableEq

/-- Reads the list object at an address. -/
def Store.read (s : Store) (a : ℕ) : List ℚ := s.lists.getD a []

/-- Overwrites the list object at an address. -/
def Store.write (s : Store) (a : ℕ) (l : List ℚ) : Store := ⟨s.lists.set a l⟩

/-- Address of the class attribute `solar_values_minute`. -/
def addr_svm : ℕ := 0

/-- Address of the class attribute `solar_values_power`. -/
def addr_svp : ℕ := 1

/-- Address of the class attribute `solar_hourly_prediction_values`. -/
def addr_shpv : ℕ := 2

/-- Address of the class attribute `solar_predictions_minute`. -/
def addr_spm : ℕ := 3

/-- Address of the class attribute `solar_predictions_power`. -/
def addr_spp : ℕ := 4

/-- The store right after the class body runs: the five class attributes
each hold a fresh empty list. -/
def classStore : Store := ⟨List.replicate 5 []⟩

/-- One `DisplayData` instance: per-attribute optional overriding addresses
(the instance `__dict__`), plus the attributes `__init__` assigns directly.
`solar_hourly_values` is reassigned inside `reset_hourly_values`, so after
construction it is always instance-level and is stored by value here. -/
structure Instance where
  svm_ref : Option ℕ
  svp_ref : Option ℕ
  shpv_ref : Option ℕ
  spm_ref : Option ℕ
  spp_ref : Option ℕ
  solar_current : ℚ
  solar_today : ℚ
  last_solar_time : ℕ
  solar_hourly_values : List (List ℚ)
deriving Repr, DecidableEq

/-- Attribute lookup for `solar_values_minute`. -/
def Instance.svm_addr (i : Instance) : ℕ := i.svm_ref.getD addr_svm

/-- Attribute lookup for `solar_values_power`. -/
def Instance.svp_addr (i : Instance) : ℕ := i.svp_ref.getD addr_svp

/-- Attribute lookup for `solar_hourly_prediction_values`. -/
def Instance.shpv_addr (i : Instance) : ℕ := i.shpv_ref.getD addr_shpv

/-- Attribute lookup for `solar_predictions_minute`. -/
def Instance.spm_addr (i : Instance) : ℕ := i.spm_ref.getD addr_spm

/-- Attribute lookup for `solar_predictions_power`. -/
def Instance.spp_addr (i : Instance) : ℕ := i.spp_ref.getD addr_spp

/-- The list `self.solar_hourly_prediction_values` currently resolves to. -/
def Instance.read_shpv (i : Instance) (s : Store) : List ℚ := s.read i.shpv_addr

/-- The list `self.solar_predictions_minute` currently resolves to. -/
def Instance.read_spm (i : Instance) (s : Store) : List ℚ := s.read i.spm_addr

/-- The list `self.solar_values_minute` currently resolves to. -/
def Instance.read_svm (i : Instance) (s : Store) : List ℚ := s.read i.svm_addr

/-- `self.solar_predictions_minute.append(x)` performed through an
instance: mutates the resolved list object in place. -/
def appendThrough_spm (i : Instance) (s : Store) (x : ℚ) : Store :=
  s.write i.spm_addr (s.read i.spm_addr ++ [x])

/-- DisplayData.__init__ (src/solar.py lines 98-110) under Python attribute
semantics: scalars and `last_solar_time` are assigned on the instance, none
of the five series attributes is reassigned, and `reset_hourly_values`
assigns a fresh instance-level `solar_hourly_values` while appending 24
zeros through `self.solar_hourly_prediction_values` — which resolves to the
class-level list shared by every instance. -/
def initInstance (s : Store) : Instance × Store :=
  let i : Instance :=
    { svm_ref := none
      svp_ref := none
      shpv_ref := none
      spm_ref := none
      spp_ref := none
      solar_current := 0
      solar_today := 0
      last_solar_time := MINUTES_IN_A_DAY + 1
      solar_hourly_values := List.replicate 24 [] }
  (i, s.write i.shpv_addr (s.read i.shpv_addr ++ List.replicate 24 0))

end PyModel

/-! Frame and characterization lemmas about the merge step. -/

/-- One merge iteration never touches the day series, the hourly buckets or
the scalar bookkeeping fields. -/
theorem mergeStep_frame (today : ℤ) (acc : DisplayData) (e : Timestamp × ℚ) :
    (mergeStep today acc e).solar_values_minute = acc.solar_values_minute ∧
    (mergeStep today acc e).solar_values_power = acc.solar_values_power ∧
    (mergeStep today acc e).solar_hourly_values = acc.solar_hourly_values ∧
    (mergeStep today acc e).last_solar_time = acc.last_solar_time ∧
    (mergeStep today acc e).last_update_time = acc.last_update_time ∧
    (mergeStep today acc e).forecast = acc.forecast ∧
    (mergeStep today acc e).minutes_between_updates = acc.minutes_between_updates := by
  unfold mergeStep
  split
  · split <;> simp
  · simp

/-- Folding the merge over any entry list never touches the day series, the
hourly buckets or the scalar bookkeeping fields. -/
theorem mergeFold_frame (today : ℤ) (entries : List (Timestamp × ℚ)) (acc : DisplayData) :
    ((entries.foldl (mergeStep today) acc).solar_values_minute = acc.solar_values_minute ∧
     (entries.foldl (mergeStep today) acc).solar_values_power = acc.solar_values_power ∧
     (entries.foldl (mergeStep today) acc).solar_hourly_values = acc.solar_hourly_values) ∧
    ((entries.foldl (mergeStep today) acc).last_solar_time = acc.last_solar_time ∧
     (entries.foldl (mergeStep today) acc).last_update_time = acc.last_update_time ∧
     (entries.foldl (mergeStep today) acc).forecast = acc.forecast ∧
     (entries.foldl (mergeStep today) acc).minutes_between_updates
       = acc.minutes_between_updates) := by
  induction entries generalizing acc with
  | nil => simp
  | cons e rest ih =>
    obtain ⟨h1, h2, h3, h4, h5, h6, h7⟩ := mergeStep_frame today acc e
    obtain ⟨⟨g1, g2, g3⟩, g4, g5, g6, g7⟩ := ih (mergeStep today acc e)
    simp only [List.foldl_cons]
    exact ⟨⟨g1.trans h1, g2.trans h2, g3.trans h3⟩,
      g4.trans h4, g5.trans h5, g6.trans h6, g7.trans h7⟩

/-- The whole merge-if-needed step never touches the day series, the hourly
buckets or the scalar bookkeeping fields, whatever the provider does. -/
theorem update_prediction_frame (d : DisplayData) (today : ℤ) (p : Provider) :
    ((d.update_solar_prediction_if_needed today p).solar_values_minute
        = d.solar_values_minute ∧
     (d.update_solar_prediction_if_needed today p).solar_values_power
        = d.solar_values_power ∧
     (d.update_solar_prediction_if_needed today p).solar_hourly_values
        = d.solar_hourly_values) ∧
    ((d.update_solar_prediction_if_needed today p).last_solar_time = d.last_solar_time ∧
     (d.update_solar_prediction_if_needed today p).last_update_time = d.last_update_time ∧
     (d.update_solar_prediction_if_needed today p).forecast = d.forecast ∧
     (d.update_solar_prediction_if_needed today p).minutes_between_updates
       = d.minutes_between_updates) := by
  unfold DisplayData.update_solar_prediction_if_needed
  split
  · simp
  · cases p with
    | error e => simp
    | ok entries => exact mergeFold_frame today entries d

/-- The prediction minute series produced by folding the merge: the entries
dated today, each mapped to its half-hour offset, appended in order. -/
theorem mergeFold_spm (today : ℤ) (entries : List (Timestamp × ℚ)) (acc : DisplayData) :
    (entries.foldl (mergeStep today) acc).solar_predictions_minute =
      acc.solar_predictions_minute ++
        (entries.filter (fun e => decide (e.1.date = today))).map
          (fun e => ((e.1.hour * 60 + 30 : ℕ) : ℚ) / (MINUTES_IN_A_DAY : ℚ)) := by
  induction entries generalizing acc with
  | nil => simp
  | cons e rest ih =>
    simp only [List.foldl_cons, List.filter_cons]
    by_cases hd : e.1.date = today
    · rw [ih]
      have hstep : (mergeStep today acc e).solar_predictions_minute =
          acc.solar_predictions_minute ++
            [((e.1.hour * 60 + 30 : ℕ) : ℚ) / (MINUTES_IN_A_DAY : ℚ)] := by
        unfold mergeStep
        simp only [if_pos hd]
        split <;> simp
      rw [hstep]
      simp [hd]
    · rw [ih]
      have hstep : mergeStep today acc e = acc := by
        unfold mergeStep
        simp [hd]
      rw [hstep]
      simp [hd]

/-- The prediction power series produced by folding the merge: the entries
dated today, each mapped to its capacity-normalized value, appended in
order. -/
theorem mergeFold_spp (today : ℤ) (entries : List (Timestamp × ℚ)) (acc : DisplayData) :
    (entries.foldl (mergeStep today) acc).solar_predictions_power =
      acc.solar_predictions_power ++
        (entries.filter (fun e => decide (e.1.date = today))).map
          (fun e => e.2 / MAX_SOLAR_POWER) := by
  induction entries generalizing acc with
  | nil => simp
  | cons e rest ih =>
    simp only [List.foldl_cons, List.filter_cons]
    by_cases hd : e.1.date = today
    · rw [ih]
      have hstep : (mergeStep today acc e).solar_predictions_power =
          acc.solar_predictions_power ++ [e.2 / MAX_SOLAR_POWER] := by
        unfold mergeStep
        simp only [if_pos hd]
        split <;> simp
      rw [hstep]
      simp [hd]
    · rw [ih]
      have hstep : mergeStep today acc e = acc := by
        unfold mergeStep
        simp [hd]
      rw [hstep]
      simp [hd]

/-- The hourly prediction snapshot produced by folding the merge: only the
entries dated today whose minute is exactly 0 modify it, each by setting the
slot of its hour. -/
theorem mergeFold_shpv (today : ℤ) (entries : List (Timestamp × ℚ)) (acc : DisplayData) :
    (entries.foldl (mergeStep today) acc).solar_hourly_prediction_values =
      (entries.filter
          (fun e => decide (e.1.date = today) && decide (e.1.minute = 0))).foldl
        (fun l e => l.set e.1.hour (e.2 / MAX_SOLAR_POWER))
        acc.solar_hourly_prediction_values := by
  induction entries generalizing acc with
  | nil => simp
  | cons e rest ih =>
    simp only [List.foldl_cons, List.filter_cons]
    by_cases hd : e.1.date = today
    · by_cases hm : e.1.minute = 0
      · rw [ih]
        have hstep : (mergeStep today acc e).solar_hourly_prediction_values =
            acc.solar_hourly_prediction_values.set e.1.hour (e.2 / MAX_SOLAR_POWER) := by
          unfold mergeStep
          simp [hd, hm]
        rw [hstep]
        simp [hd, hm]
      · rw [ih]
        have hstep : (mergeStep today acc e).solar_hourly_prediction_values =
            acc.solar_hourly_prediction_values := by
          unfold mergeStep
          simp [hd, hm]
        rw [hstep]
        simp [hd, hm]
    · rw [ih]
      have hstep : mergeStep today acc e = acc := by
        unfold mergeStep
        simp [hd]
      rw [hstep]
      simp [hd]

/-- Merge-if-needed leaves the day-series minutes unchanged. -/
theorem update_prediction_svm (d : DisplayData) (today : ℤ) (p : Provider) :
    (d.update_solar_prediction_if_needed today p).solar_values_minute
      = d.solar_values_minute := (update_prediction_frame d today p).1.1

/-- Merge-if-needed leaves the day-series powers unchanged. -/
theorem update_prediction_svp (d : DisplayData) (today : ℤ) (p : Provider) :
    (d.update_solar_prediction_if_needed today p).solar_values_power
      = d.solar_values_power := (update_prediction_frame d today p).1.2.1

/-- Merge-if-needed leaves the hourly buckets unchanged. -/
theorem update_prediction_shv (d : DisplayData) (today : ℤ) (p : Provider) :
    (d.update_solar_prediction_if_needed today p).solar_hourly_values
      = d.solar_hourly_values := (update_prediction_frame d today p).1.2.2

/-- Merge-if-needed leaves `last_solar_time` unchanged. -/
theorem update_prediction_lst (d : DisplayData) (today : ℤ) (p : Provider) :
    (d.update_solar_prediction_if_needed today p).last_solar_time
      = d.last_solar_time := (update_prediction_frame d today p).2.1

/-- Merge-if-needed leaves `last_update_time` unchanged. -/
theorem update_prediction_lut (d : DisplayData) (today : ℤ) (p : Provider) :
    (d.update_solar_prediction_if_needed today p).last_update_time
      = d.last_update_time := (update_prediction_frame d today p).2.2.1

/-- Merge-if-needed leaves the forecast flag unchanged. -/
theorem update_prediction_forecast (d : DisplayData) (today : ℤ) (p : Provider) :
    (d.update_solar_prediction_if_needed today p).forecast
      = d.forecast := (update_prediction_frame d today p).2.2.2.1

/-- Merge-if-needed leaves the refresh interval unchanged. -/
theorem update_prediction_mbu (d : DisplayData) (today : ℤ) (p : Provider) :
    (d.update_solar_prediction_if_needed today p).minutes_between_updates
      = d.minutes_between_updates := (update_prediction_frame d today p).2.2.2.2

/-- A provider exception is swallowed and mutates nothing. -/
theorem update_prediction_error (d : DisplayData) (today : ℤ) (u : Unit) :
    d.update_solar_prediction_if_needed today (.error u) = d := by
  unfold DisplayData.update_solar_prediction_if_needed
  split <;> rfl

/-- Once the prediction series is nonempty, merge-if-needed never consults
the provider: it is the identity for every provider outcome. -/
theorem update_prediction_fetched (d : DisplayData) (today : ℤ) (p : Provider)
    (h : d.solar_predictions_minute ≠ []) :
    d.update_solar_prediction_if_needed today p = d := by
  unfold DisplayData.update_solar_prediction_if_needed
  rw [if_pos]
  exact Or.inr (List.length_pos.mpr h)

/-- With forecasting on and no predictions stored yet, merge-if-needed
consults the provider and folds a returned mapping through `mergeStep`. -/
theorem update_prediction_fetch (d : DisplayData) (today : ℤ)
    (es : List (Timestamp × ℚ)) (hf : d.forecast = true)
    (he : d.solar_predictions_minute = []) :
    d.update_solar_prediction_if_needed today (.ok es)
      = es.foldl (mergeStep today) d := by
  unfold DisplayData.update_solar_prediction_if_needed
  rw [if_neg]
  simp [hf, he]

/-! Per-call field characterizations of the two ingestion operations. -/

/-- The flag returned by `append_solar_value` is exactly the refresh-gating
formula of line 120. -/
theorem append_snd (d : DisplayData) (ts : Timestamp) (v : ℚ) (today : ℤ)
    (p : Provider) :
    (d.append_solar_value ts v today p).2 = d.updateRequiredOf ts.minuteOfDay := rfl

/-- `append_solar_value` always ends with `last_solar_time` set to the
sample's minute-of-day. -/
theorem append_lst (d : DisplayData) (ts : Timestamp) (v : ℚ) (today : ℤ)
    (p : Provider) :
    (d.append_solar_value ts v today p).1.last_solar_time = ts.minuteOfDay := rfl

/-- `append_solar_value` advances `last_update_time` to the sample's minute
exactly when the gating formula fires; otherwise it is untouched (in
particular a rollover never touches it). -/
theorem append_lut (d : DisplayData) (ts : Timestamp) (v : ℚ) (today : ℤ)
    (p : Provider) :
    (d.append_solar_value ts v today p).1.last_update_time =
      if d.updateRequiredOf ts.minuteOfDay then some ts.minuteOfDay
      else d.last_update_time := by
  cases hur : d.updateRequiredOf ts.minuteOfDay with
  | true =>
    simp [DisplayData.append_solar_value, hur]
  | false =>
    simp only [DisplayData.append_solar_value, hur, if_false, Bool.false_eq_true]
    split <;> simp [DisplayData.reset_hourly_values]

/-- The day-series minutes after `append_solar_value`: a singleton on
rollover, otherwise the old series with the raw minute appended. -/
theorem append_svm (d : DisplayData) (ts : Timestamp) (v : ℚ) (today : ℤ)
    (p : Provider) :
    (d.append_solar_value ts v today p).1.solar_values_minute =
      if ts.minuteOfDay < d.last_solar_time then [((ts.minuteOfDay : ℕ) : ℚ)]
      else d.solar_values_minute ++ [((ts.minuteOfDay : ℕ) : ℚ)] := by
  cases hur : d.updateRequiredOf ts.minuteOfDay with
  | true =>
    simp only [DisplayData.append_solar_value, hur, if_true]
    rw [update_prediction_svm]
    split <;> simp [DisplayData.reset_hourly_values]
  | false =>
    simp only [DisplayData.append_solar_value, hur, if_false, Bool.false_eq_true]
    split <;> simp [DisplayData.reset_hourly_values]

/-- The day-series powers after `append_solar_value`: a singleton raw value
on rollover, otherwise the old series with the raw value appended. -/
theorem append_svp (d : DisplayData) (ts : Timestamp) (v : ℚ) (today : ℤ)
    (p : Provider) :
    (d.append_solar_value ts v today p).1.solar_values_power =
      if ts.minuteOfDay < d.last_solar_time then [v]
      else d.solar_values_power ++ [v] := by
  cases hur : d.updateRequiredOf ts.minuteOfDay with
  | true =>
    simp only [DisplayData.append_solar_value, hur, if_true]
    rw [update_prediction_svp]
    split <;> simp [DisplayData.reset_hourly_values]
  | false =>
    simp only [DisplayData.append_solar_value, hur, if_false, Bool.false_eq_true]
    split <;> simp [DisplayData.reset_hourly_values]

/-- The hourly buckets after `append_solar_value`: on rollover the buckets
are replaced by 24 fresh ones; either way the raw value is then appended to
the bucket of the sample's hour. -/
theorem append_shv (d : DisplayData) (ts : Timestamp) (v : ℚ) (today : ℤ)
    (p : Provider) :
    (d.append_solar_value ts v today p).1.solar_hourly_values =
      (if ts.minuteOfDay < d.last_solar_time then List.replicate 24 ([] : List ℚ)
       else d.solar_hourly_values).set ts.hour
        (((if ts.minuteOfDay < d.last_solar_time then List.replicate 24 ([] : List ℚ)
           else d.solar_hourly_values).getD ts.hour []) ++ [v]) := by
  cases hur : d.updateRequiredOf ts.minuteOfDay with
  | true =>
    simp only [DisplayData.append_solar_value, hur, if_true]
    rw [update_prediction_shv]
    split <;> simp [DisplayData.reset_hourly_values]
  | false =>
    simp only [DisplayData.append_solar_value, hur, if_false, Bool.false_eq_true]
    split <;> simp [DisplayData.reset_hourly_values]

/-- `append_solar_value` never changes the refresh interval or the forecast
flag. -/
theorem append_config (d : DisplayData) (ts : Timestamp) (v : ℚ) (today : ℤ)
    (p : Provider) :
    (d.append_solar_value ts v today p).1.minutes_between_updates
        = d.minutes_between_updates ∧
    (d.append_solar_value ts v today p).1.forecast = d.forecast := by
  cases hur : d.updateRequiredOf ts.minuteOfDay with
  | true =>
    simp only [DisplayData.append_solar_value, hur, if_true]
    rw [update_prediction_mbu, update_prediction_forecast]
    constructor <;> (split <;> simp [DisplayData.reset_hourly_values])
  | false =>
    simp only [DisplayData.append_solar_value, hur, if_false, Bool.false_eq_true]
    constructor <;> (split <;> simp [DisplayData.reset_hourly_values])

/-- The flag returned by `append_solar_value_normalized` is
`minute_in_the_day > last_solar_time` (line 144), not the gating formula. -/
theorem normalized_snd (d : DisplayData) (ts : Timestamp) (v : ℚ) (today : ℤ)
    (p : Provider) :
    (d.append_solar_value_normalized ts v today p).2
      = decide (d.last_solar_time < ts.minuteOfDay) := rfl

/-- The state returned by `append_solar_value_normalized` is the merge step
applied (unconditionally, line 160) to the post-append state. -/
theorem normalized_state (d : DisplayData) (ts : Timestamp) (v : ℚ) (today : ℤ)
    (p : Provider) :
    (d.append_solar_value_normalized ts v today p).1 =
      DisplayData.update_solar_prediction_if_needed
        (let m := ts.minuteOfDay
         let d1 :=
           if m < d.last_solar_time then
             let dr := d.reset_hourly_values
             { dr with
               solar_predictions_minute := []
               solar_predictions_power := []
               solar_values_minute := [(m : ℚ) / (MINUTES_IN_A_DAY : ℚ)]
               solar_values_power := [v / MAX_SOLAR_POWER] }
           else
             { d with
               solar_values_minute :=
                 d.solar_values_minute ++ [(m : ℚ) / (MINUTES_IN_A_DAY : ℚ)]
               solar_values_power := d.solar_values_power ++ [v / MAX_SOLAR_POWER] }
         let d2 :=
           { d1 with
             solar_hourly_values :=
               d1.solar_hourly_values.set ts.hour
                 ((d1.solar_hourly_values.getD ts.hour []) ++ [v]) }
         { d2 with last_solar_time := m }) today p := rfl

/-- `append_solar_value_normalized` never changes `last_update_time`. -/
theorem normalized_lut (d : DisplayData) (ts : Timestamp) (v : ℚ) (today : ℤ)
    (p : Provider) :
    (d.append_solar_value_normalized ts v today p).1.last_update_time
      = d.last_update_time := by
  rw [normalized_state, update_prediction_lut]
  by_cases hrol : ts.minuteOfDay < d.last_solar_time <;>
    simp [hrol, DisplayData.reset_hourly_values]

/-- `append_solar_value_normalized` always ends with `last_solar_time` set
to the sample's minute-of-day. -/
theorem normalized_lst (d : DisplayData) (ts : Timestamp) (v : ℚ) (today : ℤ)
    (p : Provider) :
    (d.append_solar_value_normalized ts v today p).1.last_solar_time
      = ts.minuteOfDay := by
  rw [normalized_state, update_prediction_lst]

/-- The day-series minutes after `append_solar_value_normalized`: a
singleton normalized offset on rollover, otherwise the old series with the
normalized offset appended. -/
theorem normalized_svm (d : DisplayData) (ts : Timestamp) (v : ℚ) (today : ℤ)
    (p : Provider) :
    (d.append_solar_value_normalized ts v today p).1.solar_values_minute =
      if ts.minuteOfDay < d.last_solar_time then
        [((ts.minuteOfDay : ℕ) : ℚ) / (MINUTES_IN_A_DAY : ℚ)]
      else d.solar_values_minute
        ++ [((ts.minuteOfDay : ℕ) : ℚ) / (MINUTES_IN_A_DAY : ℚ)] := by
  rw [normalized_state, update_prediction_svm]
  by_cases hrol : ts.minuteOfDay < d.last_solar_time <;>
    simp [hrol, DisplayData.reset_hourly_values]

/-- The day-series powers after `append_solar_value_normalized`: a singleton
normalized value on rollover, otherwise the old series with the normalized
value appended. -/
theorem normalized_svp (d : DisplayData) (ts : Timestamp) (v : ℚ) (today : ℤ)
    (p : Provider) :
    (d.append_solar_value_normalized ts v today p).1.solar_values_power =
      if ts.minuteOfDay < d.last_solar_time then [v / MAX_SOLAR_POWER]
      else d.solar_values_power ++ [v / MAX_SOLAR_POWER] := by
  rw [normalized_state, update_prediction_svp]
  by_cases hrol : ts.minuteOfDay < d.last_solar_time <;>
    simp [hrol, DisplayData.reset_hourly_values]

/-- `append_solar_value_normalized` never changes the refresh interval or
the forecast flag. -/
theorem normalized_config (d : DisplayData) (ts : Timestamp) (v : ℚ) (today : ℤ)
    (p : Provider) :
    (d.append_solar_value_normalized ts v today p).1.minutes_between_updates
        = d.minutes_between_updates ∧
    (d.append_solar_value_normalized ts v today p).1.forecast = d.forecast := by
  rw [normalized_state]
  rw [update_prediction_mbu, update_prediction_forecast]
  constructor <;>
    (by_cases hrol : ts.minuteOfDay < d.last_solar_time <;>
      simp [hrol, DisplayData.reset_hourly_values])

/-- The hourly buckets after `append_solar_value_normalized`: on rollover
the buckets are replaced by 24 fresh ones; either way the raw value is then
appended to the bucket of the sample's hour. -/
theorem normalized_shv (d : DisplayData) (ts : Timestamp) (v : ℚ) (today : ℤ)
    (p : Provider) :
    (d.append_solar_value_normalized ts v today p).1.solar_hourly_values =
      (if ts.minuteOfDay < d.last_solar_time then List.replicate 24 ([] : List ℚ)
       else d.solar_hourly_values).set ts.hour
        (((if ts.minuteOfDay < d.last_solar_time then List.replicate 24 ([] : List ℚ)
           else d.solar_hourly_values).getD ts.hour []) ++ [v]) := by
  rw [normalized_state, update_prediction_shv]
  by_cases hrol : ts.minuteOfDay < d.last_solar_time <;>
    simp [hrol, DisplayData.reset_hourly_values]

/-- Prediction minutes after `append_solar_value` under a provider
exception: cleared by a rollover, untouched otherwise. -/
theorem append_error_spm (d : DisplayData) (ts : Timestamp) (v : ℚ) (today : ℤ)
    (u : Unit) :
    (d.append_solar_value ts v today (.error u)).1.solar_predictions_minute =
      if ts.minuteOfDay < d.last_solar_time then []
      else d.solar_predictions_minute := by
  cases hur : d.updateRequiredOf ts.minuteOfDay with
  | true =>
    simp only [DisplayData.append_solar_value, hur, if_true]
    rw [update_prediction_error]
    by_cases hrol : ts.minuteOfDay < d.last_solar_time <;>
      simp [hrol, DisplayData.reset_hourly_values]
  | false =>
    simp only [DisplayData.append_solar_value, hur, if_false, Bool.false_eq_true]
    by_cases hrol : ts.minuteOfDay < d.last_solar_time <;>
      simp [hrol, DisplayData.reset_hourly_values]

/-- Prediction powers after `append_solar_value` under a provider
exception: cleared by a rollover, untouched otherwise. -/
theorem append_error_spp (d : DisplayData) (ts : Timestamp) (v : ℚ) (today : ℤ)
    (u : Unit) :
    (d.append_solar_value ts v today (.error u)).1.solar_predictions_power =
      if ts.minuteOfDay < d.last_solar_time then []
      else d.solar_predictions_power := by
  cases hur : d.updateRequiredOf ts.minuteOfDay with
  | true =>
    simp only [DisplayData.append_solar_value, hur, if_true]
    rw [update_prediction_error]
    by_cases hrol : ts.minuteOfDay < d.last_solar_time <;>
      simp [hrol, DisplayData.reset_hourly_values]
  | false =>
    simp only [DisplayData.append_solar_value, hur, if_false, Bool.false_eq_true]
    by_cases hrol : ts.minuteOfDay < d.last_solar_time <;>
      simp [hrol, DisplayData.reset_hourly_values]

/-- The hourly prediction snapshot after `append_solar_value` under a
provider exception: a rollover APPENDS 24 zeros to it (it is not cleared);
otherwise it is untouched. -/
theorem append_error_shpv (d : DisplayData) (ts : Timestamp) (v : ℚ) (today : ℤ)
    (u : Unit) :
    (d.append_solar_value ts v today (.error u)).1.solar_hourly_prediction_values =
      if ts.minuteOfDay < d.last_solar_time then
        d.solar_hourly_prediction_values ++ List.replicate 24 0
      else d.solar_hourly_prediction_values := by
  cases hur : d.updateRequiredOf ts.minuteOfDay with
  | true =>
    simp only [DisplayData.append_solar_value, hur, if_true]
    rw [update_prediction_error]
    by_cases hrol : ts.minuteOfDay < d.last_solar_time <;>
      simp [hrol, DisplayData.reset_hourly_values]
  | false =>
    simp only [DisplayData.append_solar_value, hur, if_false, Bool.false_eq_true]
    by_cases hrol : ts.minuteOfDay < d.last_solar_time <;>
      simp [hrol, DisplayData.reset_hourly_values]

/-- Prediction minutes after `append_solar_value_normalized` under a
provider exception: cleared by a rollover, untouched otherwise. -/
theorem normalized_error_spm (d : DisplayData) (ts : Timestamp) (v : ℚ)
    (today : ℤ) (u : Unit) :
    (d.append_solar_value_normalized ts v today (.error u)).1.solar_predictions_minute =
      if ts.minuteOfDay < d.last_solar_time then []
      else d.solar_predictions_minute := by
  rw [normalized_state, update_prediction_error]
  by_cases hrol : ts.minuteOfDay < d.last_solar_time <;>
    simp [hrol, DisplayData.reset_hourly_values]

/-- Prediction powers after `append_solar_value_normalized` under a
provider exception: cleared by a rollover, untouched otherwise. -/
theorem normalized_error_spp (d : DisplayData) (ts : Timestamp) (v : ℚ)
    (today : ℤ) (u : Unit) :
    (d.append_solar_value_normalized ts v today (.error u)).1.solar_predictions_power =
      if ts.minuteOfDay < d.last_solar_time then []
      else d.solar_predictions_power := by
  rw [normalized_state, update_prediction_error]
  by_cases hrol : ts.minuteOfDay < d.last_solar_time <;>
    simp [hrol, DisplayData.reset_hourly_values]

/-- The hourly prediction snapshot after `append_solar_value_normalized`
under a provider exception: a rollover APPENDS 24 zeros to it (it is not
cleared); otherwise it is untouched. -/
theorem normalized_error_shpv (d : DisplayData) (ts : Timestamp) (v : ℚ)
    (today : ℤ) (u : Unit) :
    (d.append_solar_value_normalized ts v today (.error u)).1.solar_hourly_prediction_values =
      if ts.minuteOfDay < d.last_solar_time then
        d.solar_hourly_prediction_values ++ List.replicate 24 0
      else d.solar_hourly_prediction_values := by
  rw [normalized_state, update_prediction_error]
  by_cases hrol : ts.minuteOfDay < d.last_solar_time <;>
    simp [hrol, DisplayData.reset_hourly_values]

/-- Helper: every slot of a replicated list of empty buckets reads back
empty. -/
theorem replicate_nil_getD (n k : ℕ) :
    (List.replicate n ([] : List ℚ)).getD k [] = [] := by
  induction n generalizing k with
  | zero => simp
  | succ n ih =>
    cases k with
    | zero => simp [List.replicate_succ]
    | succ k =>
      simp only [List.replicate_succ, List.getD_cons_succ]
      exact ih k

/-- State for the C1/C3-style scenarios: forecasting on, one sample at
minute 10 whose refresh fetched the forecast entry (hour 5, minute 0,
4000 W) for day 0, so `solar_hourly_prediction_values` holds 1/2 at index 5
and `last_solar_time = 10`. -/
def c1_s1 : DisplayData :=
  ((DisplayData.init true 1).append_solar_value ⟨0, 0, 10⟩ 0 0
    (.ok [(⟨0, 5, 0⟩, 4000)])).1

/-- C1 counterexample: ingesting a sample at minute 3 (< lastSampleMinute
10, a rollover) does NOT clear `solar_hourly_prediction_values`: the value
1/2 written for hour 5 on the previous day survives the rollover, and the
list has grown to 72 entries (24 zeros are appended per reset) instead of
being a cleared 24-slot snapshot. -/
theorem C1_counterexample :
    (Timestamp.mk 1 0 3).minuteOfDay < c1_s1.last_solar_time ∧
    ((c1_s1.append_solar_value ⟨1, 0, 3⟩ 7 0
        (.error ())).1.solar_hourly_prediction_values)[5]? =
      some (4000 / MAX_SOLAR_POWER) ∧
    (4000 / MAX_SOLAR_POWER : ℚ) ≠ 0 ∧
    (c1_s1.append_solar_value ⟨1, 0, 3⟩ 7 0
        (.error ())).1.solar_hourly_prediction_values ≠ List.replicate 24 (0 : ℚ) := by
  have hs1 : c1_s1.solar_hourly_prediction_values =
      (List.replicate 24 (0 : ℚ) ++ List.replicate 24 0).set 5 (4000 / MAX_SOLAR_POWER) := by
    simp [c1_s1, DisplayData.append_solar_value, DisplayData.init,
      DisplayData.reset_hourly_values, DisplayData.updateRequiredOf,
      DisplayData.update_solar_prediction_if_needed, mergeStep,
      Timestamp.minuteOfDay, MINUTES_IN_A_DAY]
  have hlst : c1_s1.last_solar_time = 10 := rfl
  have hc : (Timestamp.mk 1 0 3).minuteOfDay < c1_s1.last_solar_time := by
    rw [hlst]; decide
  have h2 : (c1_s1.append_solar_value ⟨1, 0, 3⟩ 7 0
      (.error ())).1.solar_hourly_prediction_values =
        c1_s1.solar_hourly_prediction_values ++ List.replicate 24 0 := by
    rw [append_error_shpv, if_pos hc]
  refine ⟨hc, ?_, ?_, ?_⟩
  · rw [h2, hs1]
    rw [List.getElem?_append, if_pos (by simp)]
    exact List.getElem?_set_eq_of_lt _ (by simp)
  · norm_num [MAX_SOLAR_POWER]
  · rw [h2, hs1]
    intro hEq
    have := congrArg List.length hEq
    simp at this

/-- C1 (amended): for both ingestion operations, a sample whose
minute-of-day is below `last_solar_time` resets the day series to the
single current sample, replaces the hourly buckets by 24 fresh ones holding
only the current raw value, and clears both prediction series (so
forecastFetched is reset); but `solar_hourly_prediction_values` is NOT
cleared: the reset appends 24 zeros to it, keeping all previous entries
(stated under a failing provider so the refetch that may follow the reset
leaves the prediction state untouched). -/
theorem C1_amended (d : DisplayData) (ts : Timestamp) (v : ℚ) (today : ℤ)
    (h : ts.minuteOfDay < d.last_solar_time) :
    ((d.append_solar_value ts v today (.error ())).1.solar_values_minute
        = [(ts.minuteOfDay : ℚ)] ∧
     (d.append_solar_value ts v today (.error ())).1.solar_values_power = [v] ∧
     (d.append_solar_value ts v today (.error ())).1.solar_hourly_values
        = (List.replicate 24 []).set ts.hour [v] ∧
     (d.append_solar_value ts v today (.error ())).1.solar_predictions_minute = [] ∧
     (d.append_solar_value ts v today (.error ())).1.solar_predictions_power = [] ∧
     (d.append_solar_value ts v today (.error ())).1.solar_hourly_prediction_values
        = d.solar_hourly_prediction_values ++ List.replicate 24 0) ∧
    ((d.append_solar_value_normalized ts v today (.error ())).1.solar_values_minute
        = [(ts.minuteOfDay : ℚ) / (MINUTES_IN_A_DAY : ℚ)] ∧
     (d.append_solar_value_normalized ts v today (.error ())).1.solar_values_power
        = [v / MAX_SOLAR_POWER] ∧
     (d.append_solar_value_normalized ts v today (.error ())).1.solar_hourly_values
        = (List.replicate 24 []).set ts.hour [v] ∧
     (d.append_solar_value_normalized ts v today (.error ())).1.solar_predictions_minute
        = [] ∧
     (d.append_solar_value_normalized ts v today (.error ())).1.solar_predictions_power
        = [] ∧
     (d.append_solar_value_normalized ts v today (.error ())).1.solar_hourly_prediction_values
        = d.solar_hourly_prediction_values ++ List.replicate 24 0) := by
  refine ⟨⟨?_, ?_, ?_, ?_, ?_, ?_⟩, ?_, ?_, ?_, ?_, ?_, ?_⟩
  · rw [append_svm, if_pos h]
  · rw [append_svp, if_pos h]
  · rw [append_shv]
    simp only [if_pos h, replicate_nil_getD, List.nil_append]
  · rw [append_error_spm, if_pos h]
  · rw [append_error_spp, if_pos h]
  · rw [append_error_shpv, if_pos h]
  · rw [normalized_svm, if_pos h]
  · rw [normalized_svp, if_pos h]
  · rw [normalized_shv]
    simp only [if_pos h, replicate_nil_getD, List.nil_append]
  · rw [normalized_error_spm, if_pos h]
  · rw [normalized_error_spp, if_pos h]
  · rw [normalized_error_shpv, if_pos h]

/-- Witness for C1 (amended) at a concrete rollover input. -/
theorem C1_amended_witness :
    ((DisplayData.init false 1).append_solar_value ⟨0, 0, 5⟩ 3 0
        (.error ())).1.solar_values_minute
      = [((Timestamp.mk 0 0 5).minuteOfDay : ℚ)] :=
  (C1_amended (DisplayData.init false 1) ⟨0, 0, 5⟩ 3 0 (by decide)).1.1

/-- C2 counterexample: on the very first ingest through
`append_solar_value_normalized` (fresh accumulator, sample at minute 10)
the returned refresh flag is false, not true: the normalized variant
computes `minute > last_solar_time` against the sentinel 1441 instead of
the refresh-gating formula. -/
theorem C2_counterexample :
    ((DisplayData.init false 1).append_solar_value_normalized ⟨0, 0, 10⟩ 5 0
      (.error ())).2 = false := rfl

/-- C2 (amended): the claimed refresh gating holds for `append_solar_value`
only: its flag is true when `last_update_time` is null and otherwise exactly
when `minuteOfDay ≥ last_update_time + minutes_between_updates`, and
`last_update_time` is set to `minuteOfDay` exactly on refreshing calls.
`append_solar_value_normalized` instead returns
`minuteOfDay > last_solar_time` (hence false on the very first call) and
never modifies `last_update_time`. -/
theorem C2_amended (d : DisplayData) (ts : Timestamp) (v : ℚ) (today : ℤ)
    (p : Provider) :
    ((d.append_solar_value ts v today p).2 =
       (match d.last_update_time with
        | none => true
        | some r => decide (r + d.minutes_between_updates ≤ ts.minuteOfDay)) ∧
     (d.append_solar_value ts v today p).1.last_update_time =
       (if (d.append_solar_value ts v today p).2 then some ts.minuteOfDay
        else d.last_update_time)) ∧
    ((d.append_solar_value_normalized ts v today p).2
        = decide (d.last_solar_time < ts.minuteOfDay) ∧
     (d.append_solar_value_normalized ts v today p).1.last_update_time
        = d.last_update_time) := by
  refine ⟨⟨append_snd d ts v today p, ?_⟩,
    normalized_snd d ts v today p, normalized_lut d ts v today p⟩
  rw [append_snd, append_lut]

/-- State after one exception-free merge attempt that retained zero points:
forecasting on, refresh fired at minute 0, provider returned an empty
mapping. -/
def c3_s1 : DisplayData :=
  ((DisplayData.init true 1).append_solar_value ⟨0, 0, 0⟩ 0 0 (.ok [])).1

/-- C3 counterexample: the first merge attempt completes without exception
(provider returns an empty mapping, refresh fired), yet the prediction
series stays empty, so the next eligible call on the same day consults the
provider again — its returned data lands in the state. -/
theorem C3_counterexample :
    ((DisplayData.init true 1).append_solar_value ⟨0, 0, 0⟩ 0 0 (.ok [])).2 = true ∧
    c3_s1.solar_predictions_minute = [] ∧
    (c3_s1.append_solar_value ⟨0, 0, 1⟩ 0 0 (.ok [(⟨0, 5, 0⟩, 4000)])).2 = true ∧
    (c3_s1.append_solar_value ⟨0, 0, 1⟩ 0 0
        (.ok [(⟨0, 5, 0⟩, 4000)])).1.solar_predictions_minute ≠ [] := by
  refine ⟨rfl, rfl, rfl, ?_⟩
  have h : (c3_s1.append_solar_value ⟨0, 0, 1⟩ 0 0
      (.ok [(⟨0, 5, 0⟩, 4000)])).1.solar_predictions_minute =
        [((5 * 60 + 30 : ℕ) : ℚ) / (MINUTES_IN_A_DAY : ℚ)] := by
    simp [c3_s1, DisplayData.append_solar_value, DisplayData.init,
      DisplayData.reset_hourly_values, DisplayData.updateRequiredOf,
      DisplayData.update_solar_prediction_if_needed, mergeStep,
      Timestamp.minuteOfDay]
  rw [h]
  simp

/-- C3 (amended): the once-per-day guard is `solar_predictions_minute`
being nonempty, not a per-day success flag: once the series is nonempty the
merge never consults the provider again that day; but an exception-free
attempt whose mapping has no entry dated today leaves the series empty, so
the next call that reaches the merge step fetches again. -/
theorem C3_amended (d : DisplayData) (today : ℤ) :
    (∀ p, d.solar_predictions_minute ≠ [] →
        d.update_solar_prediction_if_needed today p = d) ∧
    (∀ entries, d.forecast = true → d.solar_predictions_minute = [] →
        (∀ e ∈ entries, e.1.date ≠ today) →
        (d.update_solar_prediction_if_needed today
            (.ok entries)).solar_predictions_minute = []) ∧
    (∀ entries, d.forecast = true → d.solar_predictions_minute = [] →
        d.update_solar_prediction_if_needed today (.ok entries)
          = entries.foldl (mergeStep today) d) := by
  refine ⟨fun p h => update_prediction_fetched d today p h, ?_,
    fun entries hf he => update_prediction_fetch d today entries hf he⟩
  intro entries hf he hdates
  rw [update_prediction_fetch d today entries hf he, mergeFold_spm, he]
  have hfil : entries.filter (fun e => decide (e.1.date = today)) = [] := by
    rw [List.filter_eq_nil_iff]
    intro a ha
    simpa using hdates a ha
  rw [hfil]
  simp

/-- Witness for C3 (amended): a state that already holds a prediction point
ignores the provider entirely. -/
theorem C3_amended_witness :
    DisplayData.update_solar_prediction_if_needed
        { DisplayData.init true 1 with solar_predictions_minute := [0] } 0
        (.ok [(⟨0, 5, 0⟩, 4000)])
      = { DisplayData.init true 1 with solar_predictions_minute := [0] } :=
  (C3_amended { DisplayData.init true 1 with solar_predictions_minute := [0] } 0).1
    (.ok [(⟨0, 5, 0⟩, 4000)]) (by simp)

/-- C4: a provider exception during the merge step mutates no accumulator
state and is swallowed (the embedded operation is total: the `try/except`
of lines 168-180 turns the exception into a plain return, so the ingestion
caller still receives the normal gating flag); `forecastFetched` — the
emptiness guard — is left as it was, and a later call that reaches the
merge step with the guard open consults the provider again. -/
theorem C4_exception_safe (d : DisplayData) (ts : Timestamp) (v : ℚ)
    (today : ℤ) (u : Unit) :
    (d.update_solar_prediction_if_needed today (.error u) = d) ∧
    ((d.append_solar_value ts v today (.error u)).2
        = d.updateRequiredOf ts.minuteOfDay) ∧
    (∀ entries, d.forecast = true → d.solar_predictions_minute = [] →
        d.update_solar_prediction_if_needed today (.ok entries)
          = entries.foldl (mergeStep today) d) :=
  ⟨update_prediction_error d today u, append_snd d ts v today (.error u),
    fun entries hf he => update_prediction_fetch d today entries hf he⟩

/-- Witness for C4 at a concrete state: with forecasting on and nothing
fetched, the retry consults the provider's mapping. -/
theorem C4_exception_safe_witness :
    DisplayData.update_solar_prediction_if_needed (DisplayData.init true 1) 0
        (.ok [(⟨0, 5, 0⟩, 4000)])
      = [(⟨0, 5, 0⟩, (4000 : ℚ))].foldl (mergeStep 0) (DisplayData.init true 1) :=
  (C4_exception_safe (DisplayData.init true 1) ⟨0, 0, 0⟩ 0 0 ()).2.2
    [(⟨0, 5, 0⟩, 4000)] rfl rfl

/-- After a rollover with forecasting on, the merge invoked at the end of
`append_solar_value_normalized` fetches: the prediction minutes become
exactly the mapped offsets of the provider entries dated today. -/
theorem normalized_rollover_spm (d : DisplayData) (ts : Timestamp) (v : ℚ)
    (today : ℤ) (es : List (Timestamp × ℚ)) (hf : d.forecast = true)
    (hrol : ts.minuteOfDay < d.last_solar_time) :
    (d.append_solar_value_normalized ts v today (.ok es)).1.solar_predictions_minute =
      (es.filter (fun e => decide (e.1.date = today))).map
        (fun e => ((e.1.hour * 60 + 30 : ℕ) : ℚ) / (MINUTES_IN_A_DAY : ℚ)) := by
  rw [normalized_state, update_prediction_fetch _ today es
    (by simp [hrol, DisplayData.reset_hourly_values, hf])
    (by simp [hrol])]
  rw [mergeFold_spm]
  simp [hrol]

/-- C5 counterexample: the very first `append_solar_value_normalized` call
returns refreshDue = false, yet the merge step runs on that call: the
provider's entry lands in the prediction series. -/
theorem C5_counterexample :
    ((DisplayData.init true 1).append_solar_value_normalized ⟨0, 0, 10⟩ 5 0
        (.ok [(⟨0, 5, 0⟩, 4000)])).2 = false ∧
    ((DisplayData.init true 1).append_solar_value_normalized ⟨0, 0, 10⟩ 5 0
        (.ok [(⟨0, 5, 0⟩, 4000)])).1.solar_predictions_minute ≠ [] := by
  refine ⟨rfl, ?_⟩
  have h : ((DisplayData.init true 1).append_solar_value_normalized ⟨0, 0, 10⟩ 5 0
      (.ok [(⟨0, 5, 0⟩, 4000)])).1.solar_predictions_minute =
        [((5 * 60 + 30 : ℕ) : ℚ) / (MINUTES_IN_A_DAY : ℚ)] := by
    simp [DisplayData.append_solar_value_normalized, DisplayData.init,
      DisplayData.reset_hourly_values, DisplayData.update_solar_prediction_if_needed,
      mergeStep, Timestamp.minuteOfDay, MINUTES_IN_A_DAY]
  rw [h]
  simp

/-- C5 (amended): the merge runs exactly on refreshing calls only for
`append_solar_value`: when its flag is false the provider outcome cannot
influence the call at all. `append_solar_value_normalized` invokes the
merge on every call: after a rollover with forecasting on, a provider
entry dated today is merged even though the returned flag is false. -/
theorem C5_amended (d : DisplayData) (ts : Timestamp) (v : ℚ) (today : ℤ) :
    (∀ p q, (d.append_solar_value ts v today p).2 = false →
        d.append_solar_value ts v today p = d.append_solar_value ts v today q) ∧
    (∀ e : Timestamp × ℚ, d.forecast = true →
        ts.minuteOfDay < d.last_solar_time → e.1.date = today →
        (d.append_solar_value_normalized ts v today (.ok [e])).2 = false ∧
        (d.append_solar_value_normalized ts v today
            (.ok [e])).1.solar_predictions_minute ≠ []) := by
  constructor
  · intro p q h
    have hur : d.updateRequiredOf ts.minuteOfDay = false := by
      rw [← append_snd d ts v today p]; exact h
    simp [DisplayData.append_solar_value, hur]
  · intro e hf hrol hdate
    constructor
    · rw [normalized_snd]
      simp only [decide_eq_false_iff_not]
      omega
    · rw [normalized_rollover_spm d ts v today [e] hf hrol]
      simp [hdate]

/-- Gated state for the C5 witness: refresh interval 10, last refresh at
minute 5, so a sample at minute 3 does not refresh. -/
def c5_d : DisplayData :=
  { DisplayData.init false 10 with last_update_time := some 5 }

/-- Witness for C5 (amended): a non-refreshing `append_solar_value` call is
insensitive to the provider outcome. -/
theorem C5_amended_witness :
    c5_d.append_solar_value ⟨0, 0, 3⟩ 1 0 (.error ())
      = c5_d.append_solar_value ⟨0, 0, 3⟩ 1 0 (.ok [(⟨0, 5, 0⟩, 4000)]) :=
  (C5_amended c5_d ⟨0, 0, 3⟩ 1 0).1 (.error ()) (.ok [(⟨0, 5, 0⟩, 4000)]) rfl

/-- C6: when the merge step fetches (guard open) and the provider returns a
mapping, exactly the entries dated today are retained: their half-hour
offsets `(hour*60+30)/1440` and normalized values `est/capacity` are
appended to the prediction series in order, regardless of each entry's
minute; and the hourly prediction snapshot is modified only by retained
entries whose minute is exactly 0, each setting slot `hour` to
`est/capacity`. -/
theorem C6_merge_filter (d : DisplayData) (today : ℤ)
    (entries : List (Timestamp × ℚ)) (hf : d.forecast = true)
    (he : d.solar_predictions_minute = []) :
    (d.update_solar_prediction_if_needed today (.ok entries)).solar_predictions_minute =
      d.solar_predictions_minute ++
        (entries.filter (fun e => decide (e.1.date = today))).map
          (fun e => ((e.1.hour * 60 + 30 : ℕ) : ℚ) / (MINUTES_IN_A_DAY : ℚ)) ∧
    (d.update_solar_prediction_if_needed today (.ok entries)).solar_predictions_power =
      d.solar_predictions_power ++
        (entries.filter (fun e => decide (e.1.date = today))).map
          (fun e => e.2 / MAX_SOLAR_POWER) ∧
    (d.update_solar_prediction_if_needed today (.ok entries)).solar_hourly_prediction_values =
      (entries.filter
          (fun e => decide (e.1.date = today) && decide (e.1.minute = 0))).foldl
        (fun l e => l.set e.1.hour (e.2 / MAX_SOLAR_POWER))
        d.solar_hourly_prediction_values := by
  rw [update_prediction_fetch d today entries hf he]
  exact ⟨mergeFold_spm today entries d, mergeFold_spp today entries d,
    mergeFold_shpv today entries d⟩

/-- Provider mapping for the C6 witness: two entries dated today (one on
the hour, one at half past) and one dated tomorrow. -/
def c6_entries : List (Timestamp × ℚ) :=
  [(⟨0, 5, 0⟩, 4000), (⟨1, 6, 0⟩, 5000), (⟨0, 7, 30⟩, 2000)]

/-- Witness for C6 at a concrete fetch. -/
theorem C6_merge_filter_witness :
    ((DisplayData.init true 1).update_solar_prediction_if_needed 0
        (.ok c6_entries)).solar_predictions_minute =
      (DisplayData.init true 1).solar_predictions_minute ++
        (c6_entries.filter (fun e => decide (e.1.date = 0))).map
          (fun e => ((e.1.hour * 60 + 30 : ℕ) : ℚ) / (MINUTES_IN_A_DAY : ℚ)) :=
  (C6_merge_filter (DisplayData.init true 1) 0 c6_entries rfl rfl).1

/-- Running `append_solar_value_normalized` over samples whose minutes,
prefixed by the current `last_solar_time`, form a non-decreasing chain
never rolls over: every offset is appended in order. -/
theorem runNormalized_mono (today : ℤ) (sps : List ((Timestamp × ℚ) × Provider)) :
    ∀ d : DisplayData,
    List.Chain' (· ≤ ·)
      (d.last_solar_time :: sps.map (fun s => s.1.1.minuteOfDay)) →
    (runNormalized d today sps).1.solar_values_minute
      = d.solar_values_minute
        ++ sps.map
            (fun s => ((s.1.1.minuteOfDay : ℕ) : ℚ) / (MINUTES_IN_A_DAY : ℚ)) := by
  induction sps with
  | nil =>
    intro d _
    simp [runNormalized]
  | cons s rest ih =>
    intro d hch
    obtain ⟨⟨ts, v⟩, p⟩ := s
    rw [List.map_cons, List.chain'_cons] at hch
    obtain ⟨hle, hch'⟩ := hch
    have hnl : ¬ ts.minuteOfDay < d.last_solar_time := not_lt.mpr hle
    have hsvm := normalized_svm d ts v today p
    rw [if_neg hnl] at hsvm
    have hlst := normalized_lst d ts v today p
    have hrest := ih ((d.append_solar_value_normalized ts v today p).1)
      (by rw [hlst]; exact hch')
    simp only [runNormalized]
    rw [hrest, hsvm, List.map_cons, List.append_assoc, List.singleton_append]

/-- C7: starting from a fresh accumulator, ingesting same-day samples
(minute-of-day below 1440) with non-decreasing minute-of-day through
`append_solar_value_normalized` yields a day series whose length equals the
number of samples and whose offsets are non-decreasing. -/
theorem C7_day_series (f : Bool) (mbu : ℕ) (today : ℤ)
    (sps : List ((Timestamp × ℚ) × Provider))
    (hvalid : ∀ s ∈ sps, s.1.1.minuteOfDay < MINUTES_IN_A_DAY)
    (hmono : List.Chain' (· ≤ ·) (sps.map (fun s => s.1.1.minuteOfDay))) :
    (runNormalized (DisplayData.init f mbu) today sps).1.solar_values_minute.length
        = sps.length ∧
    List.Chain' (· ≤ ·)
      (runNormalized (DisplayData.init f mbu) today sps).1.solar_values_minute := by
  cases sps with
  | nil =>
    constructor <;>
      simp [runNormalized, DisplayData.init, DisplayData.reset_hourly_values]
  | cons s rest =>
    obtain ⟨⟨ts, v⟩, p⟩ := s
    have hm : ts.minuteOfDay < (DisplayData.init f mbu).last_solar_time := by
      have h1 : ts.minuteOfDay < MINUTES_IN_A_DAY := by
        simpa using hvalid ((ts, v), p) (by simp)
      have h2 : (DisplayData.init f mbu).last_solar_time = MINUTES_IN_A_DAY + 1 := rfl
      omega
    have hsvm := normalized_svm (DisplayData.init f mbu) ts v today p
    rw [if_pos hm] at hsvm
    have hlst := normalized_lst (DisplayData.init f mbu) ts v today p
    rw [List.map_cons] at hmono
    have hrest := runNormalized_mono today rest
      (((DisplayData.init f mbu).append_solar_value_normalized ts v today p).1)
      (by rw [hlst]; exact hmono)
    simp only [runNormalized]
    rw [hrest, hsvm, List.singleton_append]
    constructor
    · simp
    · have hmap : (((ts.minuteOfDay : ℕ) : ℚ) / (MINUTES_IN_A_DAY : ℚ)) ::
          rest.map (fun s => ((s.1.1.minuteOfDay : ℕ) : ℚ) / (MINUTES_IN_A_DAY : ℚ)) =
            (ts.minuteOfDay :: rest.map (fun s => s.1.1.minuteOfDay)).map
              (fun n : ℕ => ((n : ℕ) : ℚ) / (MINUTES_IN_A_DAY : ℚ)) := by
        simp [List.map_map]
      rw [hmap]
      refine List.chain'_map_of_chain' _ ?_ hmono
      intro a b hab
      have hcast : (a : ℚ) ≤ (b : ℚ) := by exact_mod_cast hab
      have hpos : (0 : ℚ) < (MINUTES_IN_A_DAY : ℚ) := by norm_num [MINUTES_IN_A_DAY]
      exact (div_le_div_iff_of_pos_right hpos).mpr hcast

/-- Sample run for the C7 witness: two same-day samples at minutes 0 and 1. -/
def c7_sps : List ((Timestamp × ℚ) × Provider) :=
  [((⟨0, 0, 0⟩, 0), .error ()), ((⟨0, 0, 1⟩, 5), .error ())]

/-- Witness for C7 at a concrete two-sample run. -/
theorem C7_day_series_witness :
    (runNormalized (DisplayData.init false 1) 0 c7_sps).1.solar_values_minute.length
      = c7_sps.length :=
  (C7_day_series false 1 0 c7_sps (by decide)
    (by norm_num [c7_sps, Timestamp.minuteOfDay, List.chain'_cons])).1

/-- Three-sample run of the C8 scenario: minute 0 value 0, minute 1 value
4000, then minute 0 again (a rolled-over day) value 100; forecasting off,
refresh interval 1. -/
def c8_sps : List ((Timestamp × ℚ) × Provider) :=
  [((⟨0, 0, 0⟩, 0), .error ()), ((⟨0, 0, 1⟩, 4000), .error ()),
    ((⟨1, 0, 0⟩, 100), .error ())]

/-- C8 counterexample: the claimed conjunction — two refresh signals at
minutes 0 and 1, none on the third call, AND a final day series of
`[(0, 100/capacity)]` — holds for neither ingestion operation:
`append_solar_value` produces the claimed flags but stores the raw value
100, while `append_solar_value_normalized` stores `100/capacity` but
signals `[false, true, false]`. -/
theorem C8_counterexample :
    ¬((runAppend (DisplayData.init false 1) 0 c8_sps).2 = [true, true, false] ∧
      (runAppend (DisplayData.init false 1) 0 c8_sps).1.solar_values_power
        = [100 / MAX_SOLAR_POWER]) ∧
    ¬((runNormalized (DisplayData.init false 1) 0 c8_sps).2 = [true, true, false] ∧
      (runNormalized (DisplayData.init false 1) 0 c8_sps).1.solar_values_power
        = [100 / MAX_SOLAR_POWER]) := by
  constructor
  · rintro ⟨-, hB⟩
    have hsvp : (runAppend (DisplayData.init false 1) 0 c8_sps).1.solar_values_power
        = [(100 : ℚ)] := by
      simp [c8_sps, runAppend, DisplayData.append_solar_value, DisplayData.init,
        DisplayData.reset_hourly_values, DisplayData.updateRequiredOf,
        DisplayData.update_solar_prediction_if_needed, mergeStep,
        Timestamp.minuteOfDay, MINUTES_IN_A_DAY]
    rw [hsvp] at hB
    simp only [List.cons.injEq, and_true] at hB
    norm_num [MAX_SOLAR_POWER] at hB
  · rintro ⟨hA, -⟩
    have hfl : (runNormalized (DisplayData.init false 1) 0 c8_sps).2
        = [false, true, false] := rfl
    rw [hfl] at hA
    simp at hA

/-- C8 (amended): with refresh interval 1, via `append_solar_value` the
three calls signal exactly `[true, true, false]` and the rollover on the
third call leaves the day series as the single raw entry `(0, 100)` — the
raw variant does not divide by capacity; via
`append_solar_value_normalized` the day series becomes the single entry
`(0, 100/capacity)` as claimed, but the signals are `[false, true, false]`. -/
theorem C8_amended :
    (runAppend (DisplayData.init false 1) 0 c8_sps).2 = [true, true, false] ∧
    (runAppend (DisplayData.init false 1) 0 c8_sps).1.solar_values_minute
      = [(0 : ℚ)] ∧
    (runAppend (DisplayData.init false 1) 0 c8_sps).1.solar_values_power
      = [(100 : ℚ)] ∧
    (100 : ℚ) ≠ 100 / MAX_SOLAR_POWER ∧
    (runNormalized (DisplayData.init false 1) 0 c8_sps).2 = [false, true, false] ∧
    (runNormalized (DisplayData.init false 1) 0 c8_sps).1.solar_values_minute
      = [(0 : ℚ)] ∧
    (runNormalized (DisplayData.init false 1) 0 c8_sps).1.solar_values_power
      = [100 / MAX_SOLAR_POWER] := by
  refine ⟨rfl, ?_, ?_, by norm_num [MAX_SOLAR_POWER], rfl, ?_, ?_⟩ <;>
    simp [c8_sps, runAppend, runNormalized, DisplayData.append_solar_value,
      DisplayData.append_solar_value_normalized, DisplayData.init,
      DisplayData.reset_hourly_values, DisplayData.updateRequiredOf,
      DisplayData.update_solar_prediction_if_needed, mergeStep,
      Timestamp.minuteOfDay, MINUTES_IN_A_DAY]

/-- Writing a list object never changes how many objects the store holds. -/
theorem store_write_length (t : PyModel.Store) (a : ℕ) (l : List ℚ) :
    (t.write a l).lists.length = t.lists.length := by
  simp [PyModel.Store.write]

/-- Reading back an in-range address just written returns the new list. -/
theorem store_read_write (s : PyModel.Store) (a : ℕ) (l : List ℚ)
    (h : a < s.lists.length) :
    (s.write a l).read a = l := by
  simp only [PyModel.Store.write, PyModel.Store.read, List.getD_eq_getElem?_getD]
  rw [List.getElem?_set_eq_of_lt _ (by simpa using h)]
  rfl

/-- C9: constructing a `DisplayData` instance resets the scalar readings,
`last_solar_time` and the 24 hourly buckets, but creates no instance
attribute for the five series: both instances resolve them to the same
class-level addresses. Constructing a second instance appends 24 zeros
through the shared `solar_hourly_prediction_values` list — observable
through the first instance — and an append performed through one instance
is observable through the other. -/
theorem C9_class_aliasing (s : PyModel.Store) (x : ℚ)
    (hlen : 5 ≤ s.lists.length) :
    ((PyModel.initInstance s).1.svm_ref = none ∧
     (PyModel.initInstance s).1.svp_ref = none ∧
     (PyModel.initInstance s).1.shpv_ref = none ∧
     (PyModel.initInstance s).1.spm_ref = none ∧
     (PyModel.initInstance s).1.spp_ref = none) ∧
    ((PyModel.initInstance s).1.solar_current = 0 ∧
     (PyModel.initInstance s).1.last_solar_time = MINUTES_IN_A_DAY + 1 ∧
     (PyModel.initInstance s).1.solar_hourly_values = List.replicate 24 []) ∧
    ((PyModel.initInstance s).1.spm_addr
        = (PyModel.initInstance (PyModel.initInstance s).2).1.spm_addr ∧
     (PyModel.initInstance s).1.shpv_addr
        = (PyModel.initInstance (PyModel.initInstance s).2).1.shpv_addr) ∧
    (PyModel.Instance.read_shpv (PyModel.initInstance s).1
        (PyModel.initInstance (PyModel.initInstance s).2).2
      = PyModel.Instance.read_shpv (PyModel.initInstance s).1
          (PyModel.initInstance s).2 ++ List.replicate 24 0) ∧
    (PyModel.Instance.read_spm (PyModel.initInstance s).1
        (PyModel.appendThrough_spm
          (PyModel.initInstance (PyModel.initInstance s).2).1
          (PyModel.initInstance (PyModel.initInstance s).2).2 x)
      = PyModel.Instance.read_spm (PyModel.initInstance s).1
          (PyModel.initInstance (PyModel.initInstance s).2).2 ++ [x]) := by
  refine ⟨⟨rfl, rfl, rfl, rfl, rfl⟩, ⟨rfl, rfl, rfl⟩, ⟨rfl, rfl⟩, ?_, ?_⟩
  · simp only [PyModel.Instance.read_shpv, PyModel.initInstance,
      PyModel.Instance.shpv_addr, Option.getD_none, PyModel.addr_shpv]
    rw [store_read_write _ _ _ (by rw [store_write_length]; omega)]
  · simp only [PyModel.Instance.read_spm, PyModel.appendThrough_spm,
      PyModel.Instance.spm_addr, PyModel.initInstance, Option.getD_none,
      PyModel.addr_spm]
    rw [store_read_write _ _ _
      (by rw [store_write_length, store_write_length]; omega)]

/-- Witness for C9: with the real class-level store, an append through the
second instance is read back through the first. -/
theorem C9_class_aliasing_witness :
    PyModel.Instance.read_spm (PyModel.initInstance PyModel.classStore).1
        (PyModel.appendThrough_spm
          (PyModel.initInstance (PyModel.initInstance PyModel.classStore).2).1
          (PyModel.initInstance (PyModel.initInstance PyModel.classStore).2).2 7)
      = PyModel.Instance.read_spm (PyModel.initInstance PyModel.classStore).1
          (PyModel.initInstance (PyModel.initInstance PyModel.classStore).2).2
          ++ [7] :=
  (C9_class_aliasing PyModel.classStore 7 (by decide)).2.2.2.2

/-- C10: `append_solar_value` never touches `last_update_time` on a
rollover: starting from any state whose last refresh happened at minute `r`
(for example just before a day rollover), any run of calls — rollovers
included — whose minutes all stay below `r + minutes_between_updates`
returns false from every call and leaves `last_update_time = some r`; the
first sample reaching `r + minutes_between_updates` refreshes again. -/
theorem C10_rollover_refresh (d : DisplayData) (today : ℤ) (r : ℕ)
    (sps : List ((Timestamp × ℚ) × Provider))
    (hr : d.last_update_time = some r)
    (hlt : ∀ s ∈ sps, s.1.1.minuteOfDay < r + d.minutes_between_updates) :
    (∀ b ∈ (runAppend d today sps).2, b = false) ∧
    (runAppend d today sps).1.last_update_time = some r ∧
    (runAppend d today sps).1.minutes_between_updates
      = d.minutes_between_updates ∧
    (∀ ts v p, r + d.minutes_between_updates ≤ ts.minuteOfDay →
      ((runAppend d today sps).1.append_solar_value ts v today p).2 = true) := by
  induction sps generalizing d with
  | nil =>
    refine ⟨by simp [runAppend], by simp [runAppend, hr],
      by simp [runAppend], ?_⟩
    intro ts v p h
    simp only [runAppend]
    rw [append_snd]
    simp only [DisplayData.updateRequiredOf, hr]
    simpa using h
  | cons s rest ih =>
    obtain ⟨⟨ts, v⟩, p⟩ := s
    have hm : ts.minuteOfDay < r + d.minutes_between_updates := by
      simpa using hlt ((ts, v), p) (by simp)
    have hur : d.updateRequiredOf ts.minuteOfDay = false := by
      simp only [DisplayData.updateRequiredOf, hr]
      simp
      omega
    have hflag : (d.append_solar_value ts v today p).2 = false := by
      rw [append_snd]; exact hur
    have hlut : (d.append_solar_value ts v today p).1.last_update_time
        = some r := by
      rw [append_lut, hur]
      simp [hr]
    have hmbu : (d.append_solar_value ts v today p).1.minutes_between_updates
        = d.minutes_between_updates := (append_config d ts v today p).1
    have ihh := ih ((d.append_solar_value ts v today p).1) hlut (by
      intro s' hs'
      rw [hmbu]
      exact hlt s' (List.mem_cons_of_mem _ hs'))
    refine ⟨?_, ?_, ?_, ?_⟩
    · intro b hb
      simp only [runAppend, List.mem_cons] at hb
      rcases hb with hb | hb
      · rw [hb, hflag]
      · exact ihh.1 b hb
    · simp only [runAppend]
      exact ihh.2.1
    · simp only [runAppend]
      rw [ihh.2.2.1, hmbu]
    · intro ts' v' p' h'
      simp only [runAppend]
      exact ihh.2.2.2 ts' v' p' (by rw [hmbu]; exact h')

/-- State for the C10 witness: refresh interval 10, last refresh at minute
1435 of the previous day, so no minute of the new day can reach
`1435 + 10 = 1445`. -/
def c10_d : DisplayData :=
  { DisplayData.init false 10 with last_update_time := some 1435 }

/-- Two new-day samples for the C10 witness (minutes 0 and 30). -/
def c10_sps : List ((Timestamp × ℚ) × Provider) :=
  [((⟨1, 0, 0⟩, 50), .error ()), ((⟨1, 0, 30⟩, 60), .error ())]

/-- Witness for C10: the rollover run leaves the stale refresh stamp. -/
theorem C10_rollover_refresh_witness :
    (runAppend c10_d 0 c10_sps).1.last_update_time = some 1435 :=
  (C10_rollover_refresh c10_d 0 1435 c10_sps rfl (by decide)).2.1

end InkySolar
